import Mathlib

/-!
Verification development for the microsoft-graph-collector repository.

The Go source is shallowly embedded: pure control flow becomes Lean
functions, and every external effect (HTTP responses, file rotation,
stat calls, output dispatch) is supplied by an explicit oracle value
consumed in program order.  Machine integers that never overflow in the
modelled ranges are Nat/Int.
-/

namespace GraphCollector

/-! Constants from client.go. -/

def initialBackoffMS : Nat := 1000

def maxBackoffMS : Nat := 32000

def backoffFactor : Nat := 2

def rateLimitHttpCode : Nat := 429

/-!
Time model.  Go time.Time values reaching this program are only ever
produced by time.Now and round-tripped through RFC 3339 text, so a time
is modelled by its RFC 3339 rendering.  parseRFC3339 models
time.Parse(time.RFC3339, s): a simplified shape check accepting the
YYYY-MM-DDTHH:MM:SSZ form (the form time.Now().Format(time.RFC3339)
emits in UTC); any string not of this shape models a parse failure.
-/

def rfc3339ShapeChars : List Char → Bool
  | [y1, y2, y3, y4, '-', m1, m2, '-', d1, d2, 'T',
     h1, h2, ':', n1, n2, ':', s1, s2, 'Z'] =>
      [y1, y2, y3, y4, m1, m2, d1, d2, h1, h2, n1, n2, s1, s2].all Char.isDigit
  | _ => false

def rfc3339Shape (s : String) : Bool := rfc3339ShapeChars s.toList

structure GoTime where
  timeRepr : String
  deriving DecidableEq, Repr

def parseRFC3339 (s : String) : Option GoTime :=
  if rfc3339Shape s then some ⟨s⟩ else none

/-- Models t.Format(time.RFC3339). -/
def formatRFC3339 (t : GoTime) : String := t.timeRepr

/-- Models t.UTC().Format("2006-01-02T15:04:05Z"); the result only feeds
the request filter parameter, which the response oracle abstracts. -/
def formatFilterTime (t : GoTime) : String := t.timeRepr

/-!
HTTP layer.  A call to httpClient.Do is answered by the next element of
an oracle list; the request method, URL, headers and body never influence
which answer arrives (the oracle abstracts the server), so they are not
threaded through.  The body type is a parameter: raw bytes for the token
endpoint are an AuthBody, alert pages are handled one level up.
-/

/-- Result of one httpClient.Do call: a network-level error (Do returns a
non-nil error and a nil response), or a response with a status code, a
body, and the outcome of the subsequent ioutil.ReadAll on that body. -/
inductive DoResult (β : Type) : Type
  | netErr (msg : String)
  | resp (status : Nat) (body : β) (readErr : Option String)
  deriving DecidableEq, Repr

/-- Value of the (resp, body, err) triple makeRetryableHttpCall returns.
panicRes models the nil-pointer dereference that occurs in the source
when Do returns a network error: the error branch reads resp.StatusCode
(the 206 warning check) and resp.Body on a nil response. -/
inductive HttpOutcome (β : Type) : Type
  | ok (status : Nat) (body : β)
  | httpError (status : Nat) (body : β) (errMsg : String)
  | panicRes
  deriving DecidableEq, Repr

/-- Full observable behaviour of one makeRetryableHttpCall invocation:
final outcome, the sleeps performed (ms, in order), and the Authorization
header attached to each attempt (none when AccessToken is empty). -/
structure CallResult (β : Type) : Type where
  outcome : HttpOutcome β
  waits : List Nat
  authHeaders : List (Option String)
  deriving DecidableEq, Repr

/-- Models resp.Status, the status text carried by errors.New(resp.Status). -/
def statusText (status : Nat) : String := toString status

/-- Models the conditional Authorization header: set iff AccessToken is
non-empty. -/
def authHeader (accessToken : String) : Option String :=
  if accessToken ≠ "" then some ("Bearer " ++ accessToken) else none

/-- The retry loop of makeRetryableHttpCall, one oracle element consumed
per attempt.  An exhausted oracle means Do cannot deliver a response and
is treated as a network-level error, which in this source panics. -/
def retryLoop {β : Type} (accessToken : String) (backoffMs : Nat) :
    List (DoResult β) → CallResult β
  | [] => ⟨.panicRes, [], [authHeader accessToken]⟩
  | .netErr _ :: _ => ⟨.panicRes, [], [authHeader accessToken]⟩
  | .resp status body readErr :: rest =>
    if status ≠ 200 ∧ status ≠ rateLimitHttpCode then
      -- non-200, non-429: read the body and surface an error
      match readErr with
      | none => ⟨.httpError status body (statusText status), [], [authHeader accessToken]⟩
      | some e => ⟨.httpError status body e, [], [authHeader accessToken]⟩
    else if maxBackoffMS < backoffMs ∨ status ≠ rateLimitHttpCode then
      -- backoff exhausted, or a 200: return the response as-is
      match readErr with
      | none => ⟨.ok status body, [], [authHeader accessToken]⟩
      | some e => ⟨.httpError status body e, [], [authHeader accessToken]⟩
    else
      -- rate limited with backoff budget left: sleep and retry
      let r := retryLoop accessToken (backoffMs * backoffFactor) rest
      ⟨r.outcome, backoffMs :: r.waits, authHeader accessToken :: r.authHeaders⟩

def makeRetryableHttpCall {β : Type} (accessToken : String)
    (server : List (DoResult β)) : CallResult β :=
  retryLoop accessToken initialBackoffMS server

/-! Helper lemmas about the retry loop. -/

theorem retryLoop_over_cap {β : Type} (accessToken : String) (backoffMs : Nat)
    (status : Nat) (body : β) (readErr : Option String)
    (rest : List (DoResult β)) (h : maxBackoffMS < backoffMs) :
    retryLoop accessToken backoffMs (.resp status body readErr :: rest) =
      ⟨(retryLoop accessToken backoffMs [.resp status body readErr]).outcome,
       [], [authHeader accessToken]⟩ := by
  have h2 : maxBackoffMS < backoffMs ∨ status ≠ rateLimitHttpCode := Or.inl h
  by_cases h1 : status ≠ 200 ∧ status ≠ rateLimitHttpCode
  · cases readErr <;> simp [retryLoop, h1]
  · cases readErr <;> simp [retryLoop, h1, h2]

theorem retryLoop_authHeaders {β : Type} (accessToken : String) :
    ∀ (server : List (DoResult β)) (backoffMs : Nat) (hdr : Option String),
      hdr ∈ (retryLoop accessToken backoffMs server).authHeaders →
      hdr = authHeader accessToken := by
  intro server
  induction server with
  | nil =>
      intro backoffMs hdr hmem
      simp [retryLoop] at hmem
      simp [hmem]
  | cons d rest ih =>
      intro backoffMs hdr hmem
      cases d with
      | netErr m =>
          simp [retryLoop] at hmem
          simp [hmem]
      | resp status body readErr =>
          by_cases h1 : status ≠ 200 ∧ status ≠ rateLimitHttpCode
          · cases readErr <;> simp [retryLoop, h1] at hmem <;> simp [hmem]
          · by_cases h2 : maxBackoffMS < backoffMs ∨ status ≠ rateLimitHttpCode
            · cases readErr <;> simp [retryLoop, h1, h2] at hmem <;> simp [hmem]
            · simp [retryLoop, h1, h2] at hmem
              rcases hmem with hmem | hmem
              · simp [hmem]
              · exact ih _ hdr hmem

/-- C3: the claim says a network-level error from the underlying client is
surfaced to the caller immediately with no retry and no crash.  In the
source, the error branch of makeRetryableHttpCall dereferences the nil
response (resp.StatusCode in the 206 check, then resp.Body), so a
network error instead crashes the process with a nil-pointer panic; no
retry and no wait happen.  This theorem evaluates the model at the
failing input. -/
theorem network_error_causes_panic :
    (makeRetryableHttpCall (β := String) "" [.netErr "connection refused"]).outcome
        = .panicRes
    ∧ (makeRetryableHttpCall (β := String) "" [.netErr "connection refused"]).waits
        = [] := by
  constructor <;> rfl

/-- C4: under consecutive rate-limit (429) responses the waits between
retries are exactly 1000, 2000, 4000, 8000, 16000, 32000 ms; after the
32000 ms wait the next response is returned as-is (handled exactly like a
standalone call with the backoff budget exhausted), with no further
waiting and independently of any responses queued after it. -/
theorem rate_limit_backoff_schedule {β : Type} (accessToken : String)
    (b1 b2 b3 b4 b5 b6 bodyN : β)
    (e1 e2 e3 e4 e5 e6 readErrN : Option String)
    (statusN : Nat) (rest : List (DoResult β)) :
    (makeRetryableHttpCall accessToken
      (.resp 429 b1 e1 :: .resp 429 b2 e2 :: .resp 429 b3 e3 ::
       .resp 429 b4 e4 :: .resp 429 b5 e5 :: .resp 429 b6 e6 ::
       .resp statusN bodyN readErrN :: rest)).waits
        = [1000, 2000, 4000, 8000, 16000, 32000]
    ∧ (makeRetryableHttpCall accessToken
      (.resp 429 b1 e1 :: .resp 429 b2 e2 :: .resp 429 b3 e3 ::
       .resp 429 b4 e4 :: .resp 429 b5 e5 :: .resp 429 b6 e6 ::
       .resp statusN bodyN readErrN :: rest)).outcome
        = (retryLoop accessToken 64000 [.resp statusN bodyN readErrN]).outcome := by
  have hover : maxBackoffMS < 64000 := by decide
  have hfin := retryLoop_over_cap accessToken 64000 statusN bodyN readErrN rest hover
  constructor <;>
    (simp [makeRetryableHttpCall, retryLoop, initialBackoffMS, maxBackoffMS,
       backoffFactor, rateLimitHttpCode, hfin]
     try (split <;> cases readErrN <;> rfl))

/-!
Authentication.  structs.go: GraphAuthResponse and GraphClient (the
httpClient field is the oracle-backed HTTP layer above and is not part of
the embedded state).
-/

structure GraphAuthResponse where
  tokenType : String
  expiresIn : String
  extExpiresIn : String
  accessToken : String
  deriving DecidableEq, Repr

structure GraphClient where
  tenantId : String
  clientId : String
  clientSecret : String
  accessToken : String
  deriving DecidableEq, Repr

/-- Body bytes of a token-endpoint response, as seen by json.Unmarshal: a
well-formed JSON object of string fields, or bytes that fail to parse. -/
inductive AuthBody : Type
  | jsonObj (fields : List (String × String))
  | malformed (raw : String)
  deriving DecidableEq, Repr

/-- Text stands in for the raw body bytes (used when login wraps the body
into an error message). -/
def authBodyText : AuthBody → String
  | .jsonObj fields => String.intercalate "," (fields.map (fun p => p.1 ++ "=" ++ p.2))
  | .malformed raw => raw

/-- Models json.Unmarshal into GraphAuthResponse: a missing string field
is left at its zero value, the empty string. -/
def lookupField (fields : List (String × String)) (key : String) : String :=
  ((fields.find? (fun p => p.1 == key)).map Prod.snd).getD ""

def unmarshalAuth : AuthBody → Option GraphAuthResponse
  | .jsonObj fields =>
      some ⟨lookupField fields "token_type", lookupField fields "expires_in",
            lookupField fields "ext_expires_in", lookupField fields "access_token"⟩
  | .malformed _ => none

def initClient (tenantId clientId clientSecret : String) : GraphClient :=
  ⟨tenantId, clientId, clientSecret, ""⟩

/-- Value of the (body, err) pair conductRequestRaw returns, with the
panic of the retry layer propagated. -/
inductive ReqResult (β : Type) : Type
  | ok (body : β)
  | err (body : Option β) (msg : String)
  | panicRes
  deriving DecidableEq, Repr

/-- conductRequestRaw: request construction (URL parse of the constant
endpoint URLs, header setup, param encoding) never fails and is absorbed
by the response oracle; on error the body is returned alongside. -/
def conductRequestRaw {β : Type} (graphClient : GraphClient)
    (server : List (DoResult β)) : ReqResult β :=
  match (makeRetryableHttpCall graphClient.accessToken server).outcome with
  | .ok _ body => .ok body
  | .httpError _ body e => .err (some body) e
  | .panicRes => .panicRes

inductive LoginResult : Type
  | ok (graphClient : GraphClient)
  | err (msg : String)
  | panicked
  deriving DecidableEq, Repr

/-- login, from client.go: POST the client-credentials form, wrap a
request error as errors.New(string(body)), unmarshal the body, cache the
access token on the client. -/
def login (graphClient : GraphClient) (server : List (DoResult AuthBody)) :
    LoginResult :=
  match conductRequestRaw graphClient server with
  | .panicRes => .panicked
  | .err body _ => .err (authBodyText (body.getD (.malformed "")))
  | .ok body =>
    match unmarshalAuth body with
    | none => .err "error on unmarshal response body"
    | some authResponse => .ok { graphClient with accessToken := authResponse.accessToken }

/-- NewClient = initClient followed by login. -/
def NewClient (tenantId clientId clientSecret : String)
    (server : List (DoResult AuthBody)) : LoginResult :=
  login (initClient tenantId clientId clientSecret) server

/-- C8: if the identity endpoint answers 200 with well-formed JSON that
lacks an access_token field, login succeeds, the cached AccessToken is
the empty string, and every request made with that cached token carries
no Authorization header (the header is only set when AccessToken is
non-empty). -/
theorem missing_access_token_login (tenantId clientId clientSecret : String)
    (fields : List (String × String)) (rest : List (DoResult AuthBody))
    (hf : fields.find? (fun p => p.1 == "access_token") = none) :
    login (initClient tenantId clientId clientSecret)
        (.resp 200 (.jsonObj fields) none :: rest)
      = .ok ⟨tenantId, clientId, clientSecret, ""⟩
    ∧ ∀ (β : Type) (server : List (DoResult β)) (hdr : Option String),
        hdr ∈ (makeRetryableHttpCall
                 (GraphClient.accessToken ⟨tenantId, clientId, clientSecret, ""⟩)
                 server).authHeaders →
        hdr = none := by
  constructor
  · simp [login, conductRequestRaw, makeRetryableHttpCall, retryLoop,
      initialBackoffMS, maxBackoffMS, rateLimitHttpCode, unmarshalAuth,
      initClient, lookupField, hf]
  · intro β server hdr hmem
    have h := retryLoop_authHeaders
      (GraphClient.accessToken ⟨tenantId, clientId, clientSecret, ""⟩)
      server initialBackoffMS hdr hmem
    simpa [authHeader] using h

/-- C8 witness: a concrete token response with token_type and expires_in
fields but no access_token field. -/
theorem missing_access_token_login_witness :
    (([("token_type", "Bearer"), ("expires_in", "3599")] :
        List (String × String)).find? (fun p => p.1 == "access_token") = none)
    ∧ login (initClient "tenant0" "client0" "secret0")
        [.resp 200 (.jsonObj [("token_type", "Bearer"), ("expires_in", "3599")]) none]
      = .ok ⟨"tenant0", "client0", "secret0", ""⟩ :=
  ⟨by decide,
   (missing_access_token_login "tenant0" "client0" "secret0"
      [("token_type", "Bearer"), ("expires_in", "3599")] [] (by decide)).1⟩

/-!
Alert pagination.  Each GET against the alerts endpoint yields the next
element of a page oracle: a transport-level error from conductRequest, a
body json.Unmarshal rejects, or a parsed GraphSecurityAlertsResponse.
The value entries carry the compact single-line serialization that
convertInterfaceToString plus pretty.Ugly produce from the opaque API
objects; no claim inspects the bytes, only count and order.
-/

structure GraphSecurityAlertsResponse where
  odataContext : String
  nextLink : String
  value : List String
  deriving DecidableEq, Repr

inductive PageResult : Type
  | transportErr (msg : String)
  | badJson (msg : String)
  | page (resp : GraphSecurityAlertsResponse)
  deriving DecidableEq, Repr

/-- Observable behaviour of one GetAlerts invocation: the (count, err)
pair returned, the records pushed to the results channel (in push order),
and the number of HTTP requests issued. -/
structure GetAlertsResult where
  count : Int
  errMsg : Option String
  pushed : List String
  requests : Nat
  deriving DecidableEq, Repr

/-- Models url.Parse + ParseQuery + Get on the next-link: Go url.Parse
rejects only URLs containing ASCII control characters; the extracted skip
token is opaque downstream (it is only substituted into the request
parameters, which the page oracle abstracts), so the raw link stands in
for the token. -/
def parseNextLinkToken (link : String) : Option String :=
  if link.toList.all (fun c => 31 < c.toNat) then some link else none

/-- The while-loop of GetAlerts over the remaining page oracle.  resp is
the envelope of the page just processed, count/pushed/requests the
accumulators. -/
def getAlertsLoop (resp : GraphSecurityAlertsResponse) (count : Int)
    (pushed : List String) (requests : Nat) (server : List PageResult) :
    GetAlertsResult :=
  if resp.nextLink = "" then ⟨count, none, pushed, requests⟩
  else if (parseNextLinkToken resp.nextLink).isNone then
    -- url.Parse of the next link failed
    ⟨-1, some "next link parse error", pushed, requests⟩
  else
    match server with
    | [] => ⟨-1, some "transport error", pushed, requests + 1⟩
    | .transportErr m :: _ => ⟨-1, some m, pushed, requests + 1⟩
    | .badJson m :: _ => ⟨-1, some m, pushed, requests + 1⟩
    | .page resp2 :: rest =>
      if resp2.value = [] then ⟨0, none, pushed, requests + 1⟩
      else if resp.nextLink = resp2.nextLink then
        -- records pushed and counted, then the repeated-token break
        ⟨count + resp2.value.length, none, pushed ++ resp2.value, requests + 1⟩
      else
        getAlertsLoop resp2 (count + resp2.value.length)
          (pushed ++ resp2.value) (requests + 1) rest

/-- GetAlerts, from client.go: parse both window bounds, issue the first
request, then paginate. -/
def GetAlerts (_graphClient : GraphClient)
    (lastPollTimestamp currentTimestamp : String)
    (server : List PageResult) : GetAlertsResult :=
  match parseRFC3339 lastPollTimestamp with
  | none => ⟨-1, some "parsing time lastPollTimestamp", [], 0⟩
  | some lastPollTime =>
    let _gtTime := formatFilterTime lastPollTime
    match parseRFC3339 currentTimestamp with
    | none => ⟨-1, some "parsing time currentTimestamp", [], 0⟩
    | some currentPollTime =>
      let _leTime := formatFilterTime currentPollTime
      match server with
      | [] => ⟨-1, some "transport error", [], 1⟩
      | pr :: rest =>
        match pr with
        | .transportErr m => ⟨-1, some m, [], 1⟩
        | .badJson m => ⟨-1, some m, [], 1⟩
        | .page resp =>
          if resp.value = [] then ⟨0, none, [], 1⟩
          else getAlertsLoop resp resp.value.length resp.value 1 rest

/-- A well-formed continuation chain after an already-processed envelope:
each page is non-empty, each next-link is non-empty, parseable, and
differs from the following page's next-link, and the final page reports
an empty next-link. -/
def chainOk : GraphSecurityAlertsResponse → List GraphSecurityAlertsResponse → Bool
  | resp, [] => resp.nextLink == ""
  | resp, p :: rest =>
    (resp.nextLink != "") && (parseNextLinkToken resp.nextLink).isSome
      && (p.value != ([] : List String)) && (resp.nextLink != p.nextLink) && chainOk p rest

theorem getAlertsLoop_chain (pages : List GraphSecurityAlertsResponse) :
    ∀ (resp : GraphSecurityAlertsResponse) (count : Int)
      (pushed : List String) (requests : Nat),
      chainOk resp pages = true →
      getAlertsLoop resp count pushed requests (pages.map PageResult.page) =
        ⟨count + ((pages.map fun p => p.value.length).sum : Int), none,
         pushed ++ (pages.map fun p => p.value).flatten,
         requests + pages.length⟩ := by
  induction pages with
  | nil =>
      intro resp count pushed requests hc
      simp only [chainOk, beq_iff_eq] at hc
      rw [getAlertsLoop.eq_def]
      simp [hc]
  | cons p rest ih =>
      intro resp count pushed requests hc
      simp only [chainOk, Bool.and_eq_true, bne_iff_ne, ne_eq] at hc
      obtain ⟨⟨⟨⟨hne, hparse⟩, hpv⟩, hdiff⟩, hrest⟩ := hc
      have hsome : (parseNextLinkToken resp.nextLink).isNone = false := by
        simp only [Option.isNone_eq_false_iff]
        exact hparse
      rw [getAlertsLoop.eq_def]
      simp only [List.map_cons, if_neg hne, hsome, Bool.false_eq_true, if_false]
      rw [if_neg hpv, if_neg hdiff, ih p _ _ _ hrest]
      simp only [List.map_cons, List.sum_cons, List.flatten_cons, List.length_cons]
      congr 1
      · omega
      · simp [List.append_assoc]
      · omega

/-- C5: for non-empty pages with a well-formed continuation chain ending
in an empty next-link, GetAlerts returns the total number of records over
all pages with no error, pushes the records in page order and in-page
order, and issues one request per page. -/
theorem getAlerts_pages_count_and_order (graphClient : GraphClient)
    (lastPollTimestamp currentTimestamp : String)
    (firstPage : GraphSecurityAlertsResponse)
    (pages : List GraphSecurityAlertsResponse)
    (h1 : (parseRFC3339 lastPollTimestamp).isSome)
    (h2 : (parseRFC3339 currentTimestamp).isSome)
    (hv : firstPage.value ≠ [])
    (hc : chainOk firstPage pages = true) :
    GetAlerts graphClient lastPollTimestamp currentTimestamp
        ((firstPage :: pages).map PageResult.page) =
      ⟨(((firstPage :: pages).map fun p => p.value.length).sum : Int), none,
       ((firstPage :: pages).map fun p => p.value).flatten,
       (firstPage :: pages).length⟩ := by
  obtain ⟨t1, ht1⟩ := Option.isSome_iff_exists.mp h1
  obtain ⟨t2, ht2⟩ := Option.isSome_iff_exists.mp h2
  rw [GetAlerts.eq_def]
  simp only [ht1, ht2, List.map_cons, if_neg hv]
  rw [getAlertsLoop_chain pages firstPage _ _ _ hc]
  simp only [List.map_cons, List.sum_cons, List.flatten_cons, List.length_cons]
  congr 1
  · omega

/-- C5 witness: two pages of two and one record. -/
theorem getAlerts_pages_count_and_order_witness :
    GetAlerts ⟨"t", "c", "s", "tok"⟩ "2021-01-02T03:04:05Z" "2021-01-02T03:05:05Z"
        [.page ⟨"ctx", "https://graph.test/next1", ["a1", "a2"]⟩,
         .page ⟨"ctx", "", ["b1"]⟩]
      = ⟨3, none, ["a1", "a2", "b1"], 2⟩ := by
  have h := getAlerts_pages_count_and_order ⟨"t", "c", "s", "tok"⟩
    "2021-01-02T03:04:05Z" "2021-01-02T03:05:05Z"
    ⟨"ctx", "https://graph.test/next1", ["a1", "a2"]⟩
    [⟨"ctx", "", ["b1"]⟩]
    (by decide) (by decide) (by decide) (by decide)
  simpa using h

/-- C6: when the next page reports the same non-empty next-link as the
previous one, GetAlerts processes that second page (its records are
counted and pushed) and then halts with no error after exactly two
requests, regardless of any further queued responses. -/
theorem repeated_nextLink_terminates (graphClient : GraphClient)
    (lastPollTimestamp currentTimestamp : String)
    (p1 p2 : GraphSecurityAlertsResponse) (rest : List PageResult)
    (h1 : (parseRFC3339 lastPollTimestamp).isSome)
    (h2 : (parseRFC3339 currentTimestamp).isSome)
    (hv1 : p1.value ≠ []) (hv2 : p2.value ≠ [])
    (hne : p1.nextLink ≠ "")
    (hp : (parseNextLinkToken p1.nextLink).isSome)
    (hlink : p1.nextLink = p2.nextLink) :
    GetAlerts graphClient lastPollTimestamp currentTimestamp
        (.page p1 :: .page p2 :: rest) =
      ⟨(p1.value.length : Int) + p2.value.length, none,
       p1.value ++ p2.value, 2⟩ := by
  obtain ⟨t1, ht1⟩ := Option.isSome_iff_exists.mp h1
  obtain ⟨t2, ht2⟩ := Option.isSome_iff_exists.mp h2
  have hsome : (parseNextLinkToken p1.nextLink).isNone = false := by
    simp only [Option.isNone_eq_false_iff]
    exact hp
  rw [GetAlerts.eq_def]
  simp only [ht1, ht2, if_neg hv1]
  rw [getAlertsLoop.eq_def]
  simp only [if_neg hne, hsome, Bool.false_eq_true, if_false, if_neg hv2,
    if_pos hlink]

/-- C6 witness: two pages with the identical non-empty next-link, with a
further page queued behind them that is never requested. -/
theorem repeated_nextLink_terminates_witness :
    GetAlerts ⟨"t", "c", "s", "tok"⟩ "2021-01-02T03:04:05Z" "2021-01-02T03:05:05Z"
        [.page ⟨"ctx", "https://graph.test/nextA", ["a1"]⟩,
         .page ⟨"ctx", "https://graph.test/nextA", ["b1", "b2"]⟩,
         .page ⟨"ctx", "", ["never"]⟩]
      = ⟨3, none, ["a1", "b1", "b2"], 2⟩ := by
  have h := repeated_nextLink_terminates ⟨"t", "c", "s", "tok"⟩
    "2021-01-02T03:04:05Z" "2021-01-02T03:05:05Z"
    ⟨"ctx", "https://graph.test/nextA", ["a1"]⟩
    ⟨"ctx", "https://graph.test/nextA", ["b1", "b2"]⟩
    [.page ⟨"ctx", "", ["never"]⟩]
    (by decide) (by decide) (by decide) (by decide) (by decide) (by decide) rfl
  simpa using h

/-- Concrete run for claim C2: a first page with one record and a
populated next-link, followed by a page whose values array is empty. -/
def emptyPageServer : List PageResult :=
  [.page ⟨"ctx", "https://graph.test/nextB", ["a1"]⟩,
   .page ⟨"ctx", "https://graph.test/nextC", []⟩]

/-- C2 counterexample: the claim says an empty page ends pagination with
the count accumulated so far returned.  On this run one record was
accumulated (and pushed), yet GetAlerts returns 0: the returned count is
not the accumulated count. -/
theorem empty_page_discards_accumulated_count :
    (GetAlerts ⟨"t", "c", "s", "tok"⟩ "2021-01-02T03:04:05Z"
        "2021-01-02T03:05:05Z" emptyPageServer).count ≠
      ((GetAlerts ⟨"t", "c", "s", "tok"⟩ "2021-01-02T03:04:05Z"
        "2021-01-02T03:05:05Z" emptyPageServer).pushed.length : Int)
    ∧ (GetAlerts ⟨"t", "c", "s", "tok"⟩ "2021-01-02T03:04:05Z"
        "2021-01-02T03:05:05Z" emptyPageServer).errMsg = none := by
  constructor <;> decide

/-- C2 amended: when a pagination step after the first page finds an
empty values array, pagination ends with no error but the returned count
is the constant 0, discarding the count accumulated on earlier pages;
the records already pushed stay pushed. -/
theorem empty_page_returns_zero (graphClient : GraphClient)
    (lastPollTimestamp currentTimestamp : String)
    (p1 p2 : GraphSecurityAlertsResponse) (rest : List PageResult)
    (h1 : (parseRFC3339 lastPollTimestamp).isSome)
    (h2 : (parseRFC3339 currentTimestamp).isSome)
    (hv1 : p1.value ≠ [])
    (hne : p1.nextLink ≠ "")
    (hp : (parseNextLinkToken p1.nextLink).isSome)
    (he : p2.value = []) :
    GetAlerts graphClient lastPollTimestamp currentTimestamp
        (.page p1 :: .page p2 :: rest) =
      ⟨0, none, p1.value, 2⟩ := by
  obtain ⟨t1, ht1⟩ := Option.isSome_iff_exists.mp h1
  obtain ⟨t2, ht2⟩ := Option.isSome_iff_exists.mp h2
  have hsome : (parseNextLinkToken p1.nextLink).isNone = false := by
    simp only [Option.isNone_eq_false_iff]
    exact hp
  rw [GetAlerts.eq_def]
  simp only [ht1, ht2, if_neg hv1]
  rw [getAlertsLoop.eq_def]
  simp only [if_neg hne, hsome, Bool.false_eq_true, if_false, if_pos he]

/-- C2 amended witness: the same concrete run as the counterexample. -/
theorem empty_page_returns_zero_witness :
    GetAlerts ⟨"t", "c", "s", "tok"⟩ "2021-01-02T03:04:05Z"
        "2021-01-02T03:05:05Z" emptyPageServer = ⟨0, none, ["a1"], 2⟩ := by
  have h := empty_page_returns_zero ⟨"t", "c", "s", "tok"⟩
    "2021-01-02T03:04:05Z" "2021-01-02T03:05:05Z"
    ⟨"ctx", "https://graph.test/nextB", ["a1"]⟩
    ⟨"ctx", "https://graph.test/nextC", []⟩ []
    (by decide) (by decide) (by decide) (by decide) (by decide) rfl
  simpa [emptyPageServer] using h

theorem getAlertsLoop_error_neg_one (server : List PageResult) :
    ∀ (resp : GraphSecurityAlertsResponse) (count : Int)
      (pushed : List String) (requests : Nat),
      (getAlertsLoop resp count pushed requests server).errMsg.isSome →
      (getAlertsLoop resp count pushed requests server).count = -1 := by
  induction server with
  | nil =>
      intro resp count pushed requests h
      by_cases h1 : resp.nextLink = ""
      · rw [getAlertsLoop.eq_def] at h
        simp [h1] at h
      · by_cases h2 : (parseNextLinkToken resp.nextLink).isNone = true
        · rw [getAlertsLoop.eq_def]
          simp [h1, h2]
        · rw [getAlertsLoop.eq_def]
          simp [h1, h2]
  | cons pr rest ih =>
      intro resp count pushed requests h
      by_cases h1 : resp.nextLink = ""
      · rw [getAlertsLoop.eq_def] at h
        simp [h1] at h
      · by_cases h2 : (parseNextLinkToken resp.nextLink).isNone = true
        · rw [getAlertsLoop.eq_def]
          simp [h1, h2]
        · rcases pr with m | m | resp2
          · rw [getAlertsLoop.eq_def]
            simp [h1, h2]
          · rw [getAlertsLoop.eq_def]
            simp [h1, h2]
          · by_cases h3 : resp2.value = []
            · rw [getAlertsLoop.eq_def] at h
              simp [h1, h2, h3] at h
            · by_cases h4 : resp.nextLink = resp2.nextLink
              · rw [getAlertsLoop.eq_def] at h
                simp only [if_neg h1, if_neg h2, if_neg h3, if_pos h4] at h
                simp at h
              · rw [getAlertsLoop.eq_def] at h ⊢
                simp only [if_neg h1, if_neg h2, if_neg h3, if_neg h4] at h ⊢
                exact ih resp2 _ _ _ h

/-- C9: whenever GetAlerts returns an error (malformed lower or upper
timestamp, transport failure, unparsable envelope, or next-link parse
failure), the returned record count is the constant -1, never 0 and
never a partial count. -/
theorem getAlerts_error_returns_neg_one (graphClient : GraphClient)
    (lastPollTimestamp currentTimestamp : String) (server : List PageResult)
    (h : (GetAlerts graphClient lastPollTimestamp currentTimestamp
            server).errMsg.isSome) :
    (GetAlerts graphClient lastPollTimestamp currentTimestamp server).count
      = -1 := by
  rw [GetAlerts.eq_def] at h ⊢
  rcases hp1 : parseRFC3339 lastPollTimestamp with _ | t1
  · simp only [hp1] at h ⊢
  · rcases hp2 : parseRFC3339 currentTimestamp with _ | t2
    · simp only [hp1, hp2] at h ⊢
    · simp only [hp1, hp2] at h ⊢
      rcases server with _ | ⟨pr, rest⟩
      · rfl
      · rcases pr with m | m | resp
        · rfl
        · rfl
        · by_cases hval : resp.value = []
          · simp only [if_pos hval] at h
            simp at h
          · simp only [if_neg hval] at h ⊢
            exact getAlertsLoop_error_neg_one rest resp _ _ _ h

/-- C9 witness: a malformed lower timestamp makes GetAlerts fail, and the
count returned is -1. -/
theorem getAlerts_error_returns_neg_one_witness :
    ((GetAlerts ⟨"t", "c", "s", "tok"⟩ "not-a-timestamp"
        "2021-01-02T03:05:05Z" []).errMsg.isSome = true)
    ∧ (GetAlerts ⟨"t", "c", "s", "tok"⟩ "not-a-timestamp"
        "2021-01-02T03:05:05Z" []).count = -1 :=
  ⟨by decide,
   getAlerts_error_returns_neg_one ⟨"t", "c", "s", "tok"⟩ "not-a-timestamp"
     "2021-01-02T03:05:05Z" [] (by decide)⟩

/-!
Poll scheduler, from main.go.  One iteration of the timer arm of the
pollEvery select is embedded as pollCycle over the state held in memory
(state.State with its LastPollTimestamp field) and an environment of
oracle outcomes for the effects of the cycle: the captured current time,
the token endpoint and alert page responses, and the results of
logger.Rotate, os.Stat, outputs.WriteToOutputs and DeletePreviousFile.
The drain wait (a pure time loop over channel length and write count) has
no effect on state and is elided.
-/

structure CollectorState where
  lastPollTimestamp : String
  deriving DecidableEq, Repr

inductive GetEventsResult : Type
  | done (count : Int) (t : GoTime) (errMsg : Option String)
  | panicked
  deriving DecidableEq, Repr

structure CycleEnv where
  tenantId : String
  clientId : String
  clientSecret : String
  now : GoTime
  authServer : List (DoResult AuthBody)
  alertServer : List PageResult
  rotateErr : Option String
  statResult : Except String Int
  writeOutputsErr : Option String
  deleteErr : Option String

/-- getEvents, from main.go: capture now, build the client (NewClient),
fetch the alerts, and return (count, now, err); every error path returns
count 0 together with the captured now. -/
def getEvents (timestamp : String) (env : CycleEnv) : GetEventsResult :=
  match NewClient env.tenantId env.clientId env.clientSecret env.authServer with
  | .panicked => .panicked
  | .err e => .done 0 env.now (some e)
  | .ok graphClient =>
    let r := GetAlerts graphClient timestamp (formatRFC3339 env.now) env.alertServer
    match r.errMsg with
    | some e => .done 0 env.now (some e)
    | none => .done r.count env.now none

/-- Observable result of one poll cycle: the collector state afterwards,
whether state.Save ran (the watermark advance), and whether the process
died in a panic before finishing the cycle. -/
structure CycleResult where
  newState : CollectorState
  saved : Bool
  panicked : Bool
  deriving DecidableEq, Repr

/-- One iteration of the timer arm of pollEvery, from main.go: fetch, on
fetch error continue without saving; with events, rotate (error ⇒
continue), stat the rotated file (error ⇒ continue), bail out on a
zero-size file (continue), dispatch to outputs and delete the previous
file with failures only logged; finally set LastPollTimestamp to the
RFC 3339 rendering of the captured time and save. -/
def pollCycle (currentState : CollectorState) (env : CycleEnv) : CycleResult :=
  match getEvents currentState.lastPollTimestamp env with
  | .panicked => ⟨currentState, false, true⟩
  | .done eventCount lastPollTime errMsg =>
    match errMsg with
    | some _ => ⟨currentState, false, false⟩
    | none =>
      if 0 < eventCount then
        match env.rotateErr with
        | some _ => ⟨currentState, false, false⟩
        | none =>
          match env.statResult with
          | .error _ => ⟨currentState, false, false⟩
          | .ok size =>
            if size = 0 then ⟨currentState, false, false⟩
            else
              -- a WriteToOutputs or DeletePreviousFile failure is only
              -- logged; control falls through to the state update
              let _ := env.writeOutputsErr
              let _ := env.deleteErr
              ⟨⟨formatRFC3339 lastPollTime⟩, true, false⟩
      else ⟨⟨formatRFC3339 lastPollTime⟩, true, false⟩

theorem getEvents_now (timestamp : String) (env : CycleEnv) (count : Int)
    (t : GoTime) (errMsg : Option String)
    (h : getEvents timestamp env = .done count t errMsg) : t = env.now := by
  unfold getEvents at h
  rcases hnc : NewClient env.tenantId env.clientId env.clientSecret env.authServer
    with gc | e | _ <;> simp only [hnc] at h
  · rcases hga : (GetAlerts gc timestamp (formatRFC3339 env.now) env.alertServer).errMsg
      with _ | e2 <;> simp only [hga] at h
    · cases h
      rfl
    · cases h
      rfl
  · cases h
    rfl
  · cases h

/-- C7: whenever a poll cycle reaches the state update (every successful
cycle, including zero-record cycles), the persisted watermark equals the
RFC 3339 rendering of the now captured at the start of that cycle fetch. -/
theorem successful_cycle_sets_watermark_to_now (currentState : CollectorState)
    (env : CycleEnv) (h : (pollCycle currentState env).saved = true) :
    (pollCycle currentState env).newState.lastPollTimestamp
      = formatRFC3339 env.now := by
  unfold pollCycle at h ⊢
  rcases hge : getEvents currentState.lastPollTimestamp env with
    ⟨eventCount, lastPollTime, errMsg⟩ | _
  · have hnow := getEvents_now _ _ _ _ _ hge
    subst hnow
    simp only [hge] at h ⊢
    rcases errMsg with _ | e
    · by_cases hc : 0 < eventCount
      · simp only [if_pos hc] at h ⊢
        rcases hr : env.rotateErr with _ | r <;> simp only [hr] at h ⊢
        · rcases hst : env.statResult with e2 | size <;> simp only [hst] at h ⊢
          · simp at h
          · by_cases hsz : size = 0
            · simp [hsz] at h
            · simp [hsz]
        · simp at h
      · simp [if_neg hc]
    · simp at h
  · simp [hge] at h

/-- C7 witness: a successful zero-record cycle; the watermark becomes the
captured now. -/
theorem successful_cycle_sets_watermark_to_now_witness :
    ((pollCycle ⟨"2021-01-02T03:04:05Z"⟩
        ⟨"t", "c", "s", ⟨"2021-01-02T03:05:05Z"⟩,
         [.resp 200 (.jsonObj [("access_token", "tok")]) none],
         [.page ⟨"ctx", "", []⟩],
         none, .ok 42, none, none⟩).saved = true)
    ∧ (pollCycle ⟨"2021-01-02T03:04:05Z"⟩
        ⟨"t", "c", "s", ⟨"2021-01-02T03:05:05Z"⟩,
         [.resp 200 (.jsonObj [("access_token", "tok")]) none],
         [.page ⟨"ctx", "", []⟩],
         none, .ok 42, none, none⟩).newState.lastPollTimestamp
      = formatRFC3339 ⟨"2021-01-02T03:05:05Z"⟩ :=
  ⟨by decide,
   successful_cycle_sets_watermark_to_now ⟨"2021-01-02T03:04:05Z"⟩
     ⟨"t", "c", "s", ⟨"2021-01-02T03:05:05Z"⟩,
      [.resp 200 (.jsonObj [("access_token", "tok")]) none],
      [.page ⟨"ctx", "", []⟩],
      none, .ok 42, none, none⟩ (by decide)⟩

/-- C1 counterexample: a cycle whose output dispatch (WriteToOutputs)
fails after a successful rotation.  The claim says such a cycle leaves
the persisted watermark unchanged; in the source the dispatch failure is
only logged and the watermark is still advanced and saved. -/
theorem watermark_advances_on_dispatch_failure :
    ((pollCycle ⟨"2021-01-02T03:04:05Z"⟩
        ⟨"t", "c", "s", ⟨"2021-01-02T03:05:05Z"⟩,
         [.resp 200 (.jsonObj [("access_token", "tok")]) none],
         [.page ⟨"ctx", "", ["r1"]⟩],
         none, .ok 42, some "dispatch failed", none⟩).newState
      ≠ ⟨"2021-01-02T03:04:05Z"⟩)
    ∧ ((pollCycle ⟨"2021-01-02T03:04:05Z"⟩
        ⟨"t", "c", "s", ⟨"2021-01-02T03:05:05Z"⟩,
         [.resp 200 (.jsonObj [("access_token", "tok")]) none],
         [.page ⟨"ctx", "", ["r1"]⟩],
         none, .ok 42, some "dispatch failed", none⟩).saved = true) := by
  constructor <;> decide

/-- C1 amended: every poll cycle that fails before the output-dispatch
step (fetch error, rotation failure, stat failure, empty rotated file, or
a crash) leaves the persisted watermark unchanged; a failure reported by
WriteToOutputs after rotation does not withhold the advance.  Formally:
whenever state.Save does not run, the state is unchanged. -/
theorem watermark_unchanged_when_not_saved (currentState : CollectorState)
    (env : CycleEnv) (h : (pollCycle currentState env).saved = false) :
    (pollCycle currentState env).newState = currentState := by
  unfold pollCycle at h ⊢
  rcases hge : getEvents currentState.lastPollTimestamp env with
    ⟨eventCount, lastPollTime, errMsg⟩ | _
  · simp only [hge] at h ⊢
    rcases errMsg with _ | e
    · by_cases hc : 0 < eventCount
      · simp only [if_pos hc] at h ⊢
        rcases hr : env.rotateErr with _ | r
        · simp only [hr] at h ⊢
          rcases hst : env.statResult with e2 | size
          · simp [hst]
          · simp only [hst] at h ⊢
            by_cases hsz : size = 0
            · simp [hsz]
            · simp [hsz] at h
        · simp [hr]
      · simp [if_neg hc] at h
    · rfl
  · simp [hge]

/-- C1 amended witness: a cycle whose rotation fails; the watermark is
unchanged. -/
theorem watermark_unchanged_when_not_saved_witness :
    ((pollCycle ⟨"2021-01-02T03:04:05Z"⟩
        ⟨"t", "c", "s", ⟨"2021-01-02T03:05:05Z"⟩,
         [.resp 200 (.jsonObj [("access_token", "tok")]) none],
         [.page ⟨"ctx", "", ["r1"]⟩],
         some "rotate failed", .ok 42, none, none⟩).saved = false)
    ∧ (pollCycle ⟨"2021-01-02T03:04:05Z"⟩
        ⟨"t", "c", "s", ⟨"2021-01-02T03:05:05Z"⟩,
         [.resp 200 (.jsonObj [("access_token", "tok")]) none],
         [.page ⟨"ctx", "", ["r1"]⟩],
         some "rotate failed", .ok 42, none, none⟩).newState
      = ⟨"2021-01-02T03:04:05Z"⟩ :=
  ⟨by decide,
   watermark_unchanged_when_not_saved ⟨"2021-01-02T03:04:05Z"⟩
     ⟨"t", "c", "s", ⟨"2021-01-02T03:05:05Z"⟩,
      [.resp 200 (.jsonObj [("access_token", "tok")]) none],
      [.page ⟨"ctx", "", ["r1"]⟩],
      some "rotate failed", .ok 42, none, none⟩ (by decide)⟩

/-!
Bounded message channel, from main.go: maxMessages = int64(5000) and
chnMessages = make(chan string, maxMessages).  The channel itself is a Go
runtime object; its documented semantics (a send on a buffered channel
blocks iff the buffer is full, a receive blocks iff it is empty) are
embedded as a labelled transition system whose capacity is the
maxMessages constant.
-/

def maxMessages : Int := 5000

def chanCapacity : Nat := maxMessages.toNat

structure ChanState where
  buf : List String
  deriving DecidableEq, Repr

def initialChan : ChanState := ⟨[]⟩

inductive ChanOp : Type
  | pushOp (msg : String)
  | recvOp (msg : String)
  deriving DecidableEq, Repr

/-- One enabled channel transition.  A send is enabled only while the
buffer holds fewer than chanCapacity records: a producer attempting to
send into a full buffer has no enabled transition until a receive frees a
slot, which is exactly the blocking behaviour. -/
inductive ChanStep : ChanState → ChanOp → ChanState → Prop
  | pushStep (s : ChanState) (msg : String) (h : s.buf.length < chanCapacity) :
      ChanStep s (.pushOp msg) ⟨s.buf ++ [msg]⟩
  | recvStep (msg : String) (rest : List String) :
      ChanStep ⟨msg :: rest⟩ (.recvOp msg) ⟨rest⟩

/-- States reachable from the freshly made empty channel. -/
inductive ChanReachable : ChanState → Prop
  | init : ChanReachable initialChan
  | step (s : ChanState) (op : ChanOp) (s2 : ChanState) :
      ChanReachable s → ChanStep s op s2 → ChanReachable s2

/-- C10: the channel between fetcher and consumer never holds more than
5000 records (the maxMessages capacity), and no send transition is
enabled from a full channel, so a producer pushing into a full buffer
blocks until a receive removes a record. -/
theorem channel_bounded_and_push_blocks :
    (∀ s : ChanState, ChanReachable s → s.buf.length ≤ chanCapacity)
    ∧ (∀ (s s2 : ChanState) (msg : String), s.buf.length = chanCapacity →
        ¬ ChanStep s (.pushOp msg) s2) := by
  constructor
  · intro s hs
    induction hs with
    | init => simp [initialChan, chanCapacity]
    | step s op s2 _hr hstep ih =>
        cases hstep with
        | pushStep s msg h =>
            simp only [List.length_append, List.length_singleton]
            omega
        | recvStep msg rest =>
            simp only [List.length_cons] at ih
            show rest.length ≤ chanCapacity
            omega
  · intro s s2 msg hfull hstep
    cases hstep with
    | pushStep _ _ h => omega

/-- C10 witness: a state holding one record is reachable and within the
bound, and a full buffer of 5000 records admits no push transition. -/
theorem channel_bounded_and_push_blocks_witness :
    ((⟨["m1"]⟩ : ChanState).buf.length ≤ chanCapacity)
    ∧ ¬ ChanStep ⟨List.replicate 5000 "x"⟩ (.pushOp "y")
        ⟨List.replicate 5000 "x" ++ ["y"]⟩ :=
  ⟨channel_bounded_and_push_blocks.1 ⟨["m1"]⟩
    (.step initialChan (.pushOp "m1") ⟨["m1"]⟩ .init
      (ChanStep.pushStep initialChan "m1" (by decide))),
   channel_bounded_and_push_blocks.2 ⟨List.replicate 5000 "x"⟩
     ⟨List.replicate 5000 "x" ++ ["y"]⟩ "y"
     (by rw [List.length_replicate]; rfl)⟩

end GraphCollector
